import Mathlib

set_option maxRecDepth 8000

/-!
Shallow embedding of `src/main.py`, a webhook adapter that parses an incident
notification, formats it as a text message and forwards it to a chat webhook.

Modelling conventions:
* JSON values (as decoded by Python's `json` module / `request.get_json`) are
  the inductive `Json` below.  JSON numbers are modelled as integers: all
  numeric behaviour the development reasons about is integral, and inputs used
  in theorems stay inside the integral fragment.
* Python `dict`s are association lists with distinct keys; `dict.get` is
  `pyGet` / `pyGetD`.
* Fallible Python code is embedded in `Except String`: `.error msg` models an
  exception escaping the modelled function, `.ok` a normal return.  Exceptions
  that the source catches are resolved inside the definitions, exactly where
  the source catches them.
-/

namespace DiscordForwarder

/-- JSON values as produced by Python's `json` decoder.  Numbers are modelled
as integers (see the file header). -/
inductive Json where
  | null
  | bool (b : Bool)
  | num (n : Int)
  | str (s : String)
  | arr (elems : List Json)
  | obj (fields : List (String × Json))

/-- Python truthiness of a decoded JSON value: `None`, `False`, `0`, `""`,
`[]` and `{}` are falsy, everything else truthy. -/
def truthy : Json → Bool
  | Json.null => false
  | Json.bool b => b
  | Json.num n => n != 0
  | Json.str s => s != ""
  | Json.arr es => !es.isEmpty
  | Json.obj fs => !fs.isEmpty

/-- Key lookup in a modelled `dict` (first matching key). -/
def getOpt (fields : List (String × Json)) (key : String) : Option Json :=
  match fields with
  | [] => none
  | (k, v) :: rest => if k = key then some v else getOpt rest key

/-- `d.get(key)`: `None` when the key is absent.  (A present JSON `null` and
an absent key both yield Python `None`, i.e. `Json.null`.) -/
def pyGet (fields : List (String × Json)) (key : String) : Json :=
  (getOpt fields key).getD Json.null

/-- `d.get(key, default)`: the stored value when the key is present (even if
that value is `None`), otherwise the default. -/
def pyGetD (fields : List (String × Json)) (key : String) (default : Json) : Json :=
  (getOpt fields key).getD default

/-- Python `a or b`. -/
def pyOr (a b : Json) : Json :=
  if truthy a then a else b

/-- The single-quote character. -/
def sq : Char := Char.ofNat 39

/-- The double-quote character. -/
def dq : Char := Char.ofNat 34

/-- The backslash character. -/
def bsl : Char := Char.ofNat 92

/-- Lower-case hexadecimal digit. -/
def hexDigit (n : Nat) : Char :=
  if n < 10 then Char.ofNat (48 + n) else Char.ofNat (87 + n)

/-- How Python's `repr` of a string escapes one character, given the chosen
quote character `q`. -/
def escapeChar (q c : Char) : String :=
  if c = bsl then String.mk [bsl, bsl]
  else if c = q then String.mk [bsl, q]
  else if c = Char.ofNat 10 then "\\n"
  else if c = Char.ofNat 13 then "\\r"
  else if c = Char.ofNat 9 then "\\t"
  else if c.toNat < 32 || c.toNat == 127 then
    String.mk [bsl, Char.ofNat 120, hexDigit (c.toNat / 16), hexDigit (c.toNat % 16)]
  else String.singleton c

/-- Python `repr` of a string: single-quoted unless the string contains a
single quote and no double quote. -/
def pyReprStr (s : String) : String :=
  let q := if s.data.contains sq && !(s.data.contains dq) then dq else sq
  String.singleton q ++ String.join (s.data.map (escapeChar q)) ++ String.singleton q

mutual

/-- Python `repr()` on decoded JSON values. -/
def pyRepr : Json → String
  | Json.null => "None"
  | Json.bool true => "True"
  | Json.bool false => "False"
  | Json.num n => toString n
  | Json.str s => pyReprStr s
  | Json.arr es => "[" ++ pyReprElems es ++ "]"
  | Json.obj fs => "\x7b" ++ pyReprFields fs ++ "\x7d"

/-- Comma-separated `repr`s of list elements. -/
def pyReprElems : List Json → String
  | [] => ""
  | [e] => pyRepr e
  | e :: rest => pyRepr e ++ ", " ++ pyReprElems rest

/-- Comma-separated `key: value` `repr`s of dict entries. -/
def pyReprFields : List (String × Json) → String
  | [] => ""
  | [(k, v)] => pyReprStr k ++ ": " ++ pyRepr v
  | (k, v) :: rest => pyReprStr k ++ ": " ++ pyRepr v ++ ", " ++ pyReprFields rest

end

/-- Python `str()` on decoded JSON values (used by f-string interpolation). -/
def pyStr : Json → String
  | Json.str s => s
  | v => pyRepr v

/-- Model of `str.upper()` (ASCII letters; the inputs of interest are ASCII). -/
def pyUpper (s : String) : String :=
  String.mk (s.data.map Char.toUpper)

/-- Whitespace stripped around the argument of Python's `float(str)`
conversion (the ASCII members of `Py_UNICODE_ISSPACE` actually stripped:
space, \\t, \\n, \\v, \\f, \\r; verified against CPython). -/
def isPyWs (c : Char) : Bool :=
  c == ' ' || c == Char.ofNat 9 || c == Char.ofNat 10 || c == Char.ofNat 11 ||
    c == Char.ofNat 12 || c == Char.ofNat 13

/-- Decimal digit test (ASCII). -/
def isDigitCh (c : Char) : Bool :=
  48 ≤ c.toNat && c.toNat ≤ 57

/-- A literal accepted by Python's `float(str)` (ASCII fragment): a finite
decimal `± mant × 10 ^ exp10`, a signed infinity, or a nan.  Python
additionally accepts non-ASCII decimal digits, which are outside this model;
the well-typedness guard for claim C2 therefore only trusts a parse failure
on all-ASCII strings. -/
inductive PyLit where
  | fin (neg : Bool) (mant : Nat) (exp10 : Int)
  | inf (neg : Bool)
  | nan

/-- A CPython float (IEEE binary64) by exact value: nan, a signed infinity,
or a finite dyadic value `numer / 2 ^ denExp`. -/
inductive PyFloat where
  | nan
  | inf (neg : Bool)
  | finite (numer : Int) (denExp : Nat)

/-- One run of decimal digits in which a single underscore may stand between
two digits (Python's numeric-literal rule); returns the value, the digit
count and the rest, or `none` when an underscore is misplaced. -/
def parseUDigits (acc cnt : Nat) : List Char → Option (Nat × Nat × List Char)
  | [] => some (acc, cnt, [])
  | c :: rest =>
    if isDigitCh c then parseUDigits (10 * acc + (c.toNat - 48)) (cnt + 1) rest
    else if c = '_' then
      if cnt = 0 then none
      else
        match rest with
        | c2 :: rest2 =>
          if isDigitCh c2 then parseUDigits (10 * acc + (c2.toNat - 48)) (cnt + 1) rest2
          else none
        | [] => none
    else some (acc, cnt, c :: rest)

/-- The optional exponent part of a float literal, given the mantissa value
and its count of fractional digits. -/
def parseExpPart (neg : Bool) (mant fracDigits : Nat) : List Char → Option PyLit
  | [] => some (PyLit.fin neg mant (-(fracDigits : Int)))
  | c :: r =>
    if c = 'e' ∨ c = 'E' then
      let signed : Bool × List Char :=
        match r with
        | '+' :: rr => (false, rr)
        | '-' :: rr => (true, rr)
        | rr => (false, rr)
      match parseUDigits 0 0 signed.2 with
      | none => none
      | some (eval, ecnt, rest3) =>
        if ecnt = 0 ∨ rest3 ≠ [] then none
        else
          some (PyLit.fin neg mant
            ((if signed.1 then -(eval : Int) else (eval : Int)) - (fracDigits : Int)))
    else none

/-- The digits of a float literal after the optional sign:
`digits [. digits] [exp]` or `. digits [exp]`. -/
def parseAfterSign (neg : Bool) (cs : List Char) : Option PyLit :=
  match parseUDigits 0 0 cs with
  | none => none
  | some (ival, icnt, rest1) =>
    match rest1 with
    | '.' :: r1 =>
      (match parseUDigits 0 0 r1 with
       | none => none
       | some (fval, fcnt, rest2) =>
         if icnt + fcnt = 0 then none
         else parseExpPart neg (ival * 10 ^ fcnt + fval) fcnt rest2)
    | _ =>
      if icnt = 0 then none
      else parseExpPart neg ival 0 rest1

/-- Python's `float(str)` grammar (ASCII fragment): optional surrounding
whitespace, optional sign, then `inf` / `infinity` / `nan` (case-insensitive)
or a decimal with optional fraction and exponent, single underscores allowed
between digits.  `none` models `ValueError` (caught by the source). -/
def parsePyFloatString (s : String) : Option PyLit :=
  let core := ((s.data.dropWhile isPyWs).reverse.dropWhile isPyWs).reverse
  let signed : Bool × List Char :=
    match core with
    | '+' :: r => (false, r)
    | '-' :: r => (true, r)
    | r => (false, r)
  let low := signed.2.map Char.toLower
  if low = ['i', 'n', 'f'] ∨ low = ['i', 'n', 'f', 'i', 'n', 'i', 't', 'y'] then
    some (PyLit.inf signed.1)
  else if low = ['n', 'a', 'n'] then some PyLit.nan
  else parseAfterSign signed.1 signed.2

/-- round(a / b) with ties to even (`b > 0`). -/
def divRoundHalfEven (a b : Nat) : Nat :=
  let q := a / b
  let r := a % b
  if 2 * r < b then q
  else if b < 2 * r then q + 1
  else if q % 2 = 0 then q else q + 1

/-- round(num / den / 2 ^ e) for an arbitrary integer exponent `e`. -/
def scaledRound (num den : Nat) (e : Int) : Nat :=
  if 0 ≤ e then divRoundHalfEven num (den * 2 ^ e.toNat)
  else divRoundHalfEven (num * 2 ^ (-e).toNat) den

/-- `Nat.log2` with explicit structural fuel, so that it reduces inside the
kernel; callers pass fuel at least the bit length of the argument. -/
def log2F : Nat → Nat → Nat
  | 0, _ => 0
  | fuel + 1, n => if 2 ≤ n then log2F fuel (n / 2) + 1 else 0

/-- Floor of `log2 (num / den)` for a ratio in the binary64 normal range
(`2 ^ -1022 ≤ num / den < 2 ^ 1024`), through a 1100-fractional-bit fixed
point; the fixed point is below `2 ^ 2200`, so fuel 2200 always suffices. -/
def ratioLog2 (num den : Nat) : Int :=
  (log2F 2200 (num * 2 ^ 1100 / den) : Int) - 1100

/-- Normalise the positive rational `num / den` (ratio in the binary64
normal range) to `s · 2 ^ e` with the 53-bit significand `s` obtained by
round-to-nearest, ties-to-even (the second component of the result).  The
exponent estimate may be off by one, so the result is re-derived at a
corrected exponent when the first rounding lands outside `[2 ^ 52, 2 ^ 53)`;
a rounding result of `2 ^ 53` is collapsed to `2 ^ 52 · 2`. -/
def normRound64 (num den : Nat) : Nat × Int :=
  let e1 : Int := ratioLog2 num den - 52
  let q1 := scaledRound num den e1
  let p : Nat × Int :=
    if q1 < 2 ^ 52 then (scaledRound num den (e1 - 1), e1 - 1)
    else if 2 ^ 53 ≤ q1 then (scaledRound num den (e1 + 1), e1 + 1)
    else (q1, e1)
  if p.1 = 2 ^ 53 then (2 ^ 52, p.2 + 1) else p

/-- Reduce a dyadic `numer / 2 ^ k` to lowest terms in the power of two. -/
def normDyadic (numer : Nat) : Nat → Nat × Nat
  | 0 => (numer, 0)
  | k + 1 => if numer % 2 = 0 then normDyadic (numer / 2) k else (numer, k + 1)

/-- The exact value of the binary64 nearest to the positive rational
`num / den`, as a reduced dyadic `numer / 2 ^ k`; `none` when rounding
overflows to infinity (exact threshold `2 ^ 1024 - 2 ^ 970`, ties included,
verified against CPython).  Exactly representable values take the exact fast
path; positive values below the normal range flatten to zero (real doubles
keep a subnormal there, which renders identically — seconds 0 — and is
non-integral, so no statement below can observe the difference). -/
def roundPosToB64 (num den : Nat) : Option (Nat × Nat) :=
  if num = 0 then some (0, 0)
  else if den ∣ num ∧ num / den < 2 ^ 53 then some (num / den, 0)
  else if den * (2 ^ 1024 - 2 ^ 970) ≤ num then none
  else if num * 2 ^ 1022 < den then some (0, 0)
  else
    let se := normRound64 num den
    if 0 ≤ se.2 then some (se.1 * 2 ^ se.2.toNat, 0)
    else some (normDyadic se.1 (-se.2).toNat)

/-- `float(n)` on an int: exact for `|n| < 2 ^ 53`, otherwise rounded;
`none` models the uncaught `OverflowError: int too large to convert to
float` when `|n| ≥ 2 ^ 1024 - 2 ^ 970`. -/
def intToPyFloat (n : Int) : Option PyFloat :=
  if n.natAbs < 2 ^ 53 then some (PyFloat.finite n 0)
  else
    match roundPosToB64 n.natAbs 1 with
    | none => none
    | some (numer, k) =>
      some (PyFloat.finite (if n < 0 then -(numer : Int) else (numer : Int)) k)

/-- The float denoted by an accepted literal: `float(str)` overflows to a
signed infinity (no exception) and rounds finite decimals to binary64. -/
def litToPyFloat : PyLit → PyFloat
  | PyLit.nan => PyFloat.nan
  | PyLit.inf neg => PyFloat.inf neg
  | PyLit.fin neg mant exp10 =>
    let nd : Nat × Nat :=
      if 0 ≤ exp10 then (mant * 10 ^ exp10.toNat, 1) else (mant, 10 ^ (-exp10).toNat)
    match roundPosToB64 nd.1 nd.2 with
    | none => PyFloat.inf neg
    | some (numer, k) =>
      PyFloat.finite (if neg then -(numer : Int) else (numer : Int)) k

/-- Outcome of `float(v)` on a decoded JSON value: a float, a caught
`TypeError` (non-numeric types), a caught `ValueError` (rejected string), or
the uncaught `OverflowError` on a too-large int. -/
inductive FloatConv where
  | ok (f : PyFloat)
  | typeError
  | valueError
  | intOverflow

/-- `float(v)` on a decoded JSON value (`float(True) = 1.0`). -/
def pyFloatConv : Json → FloatConv
  | Json.num n =>
    (match intToPyFloat n with
     | some f => FloatConv.ok f
     | none => FloatConv.intOverflow)
  | Json.bool b => FloatConv.ok (PyFloat.finite (if b then 1 else 0) 0)
  | Json.str s =>
    (match parsePyFloatString s with
     | some lit => FloatConv.ok (litToPyFloat lit)
     | none => FloatConv.valueError)
  | _ => FloatConv.typeError

/-- `2 ^ 63`: bound of the platform `time_t` used by CPython's
`datetime.fromtimestamp`.  A timestamp double at or above `2 ^ 63`, or below
`-2 ^ 63`, raises `OverflowError` ("timestamp out of range for platform
time_t"), which the source does NOT catch; `-2 ^ 63` itself is accepted
(verified against CPython at the exact boundary doubles). -/
def timeTBound : Int := 9223372036854775808

/-- Epoch seconds of `0001-01-01T00:00:00Z`, the smallest `datetime`. -/
def minTimestamp : Int := -62135596800

/-- Epoch seconds of `9999-12-31T23:59:59Z`, the largest whole-second
`datetime`. -/
def maxTimestamp : Int := 253402300799

/-- Proleptic-Gregorian date from a count of days since `0000-03-01`
(Howard Hinnant's `civil_from_days`, specialised to nonnegative input). -/
def civilFromDays (g : Nat) : Nat × Nat × Nat :=
  let era := g / 146097
  let doe := g % 146097
  let yoe := (doe - doe / 1460 + doe / 36524 - doe / 146096) / 365
  let doy := doe - (365 * yoe + yoe / 4 - yoe / 100)
  let mp := (5 * doy + 2) / 153
  let d := doy - (153 * mp + 2) / 5 + 1
  let m := if mp < 10 then mp + 3 else mp - 9
  let y := yoe + era * 400
  (if m ≤ 2 then y + 1 else y, m, d)

/-- Zero-padded decimal rendering. -/
def padNum (width n : Nat) : String :=
  let s := toString n
  String.mk (List.replicate (width - s.length) '0') ++ s

/-- `datetime.fromtimestamp(sec, tz=utc).strftime("%Y-%m-%d %H:%M:%SZ")` for
whole seconds `sec` in the representable range.  glibc's `%Y` renders the
year unpadded (years below 1000 print with fewer than four digits; verified
against CPython), while `%m %d %H %M %S` are zero-padded to two digits. -/
def formatEpochUTC (ts : Int) : String :=
  let n : Nat := (ts - minTimestamp).toNat
  let days := n / 86400
  let sod := n % 86400
  let ymd := civilFromDays (days + 306)
  toString ymd.1 ++ "-" ++ padNum 2 ymd.2.1 ++ "-" ++ padNum 2 ymd.2.2 ++ " " ++
    padNum 2 (sod / 3600) ++ ":" ++ padNum 2 (sod % 3600 / 60) ++ ":" ++
    padNum 2 (sod % 60) ++ "Z"

/-- round(a / b) with ties to even, for an integer `a` and positive `b`. -/
def intRoundHalfEven (a : Int) (b : Nat) : Int :=
  if b = 1 then a
  else
    let q := Int.ediv a b
    let r := Int.emod a b
    if 2 * r < (b : Int) then q
    else if (b : Int) < 2 * r then q + 1
    else if Int.emod q 2 = 0 then q else q + 1

/-- Outcome of `datetime.fromtimestamp(d, tz=utc)` + `strftime`: a rendered
string, an exception the source catches (`ValueError` for years outside
1–9999, `OSError` from `gmtime` for years overflowing `tm_year`), or the
uncaught `OverflowError`. -/
inductive TsOutcome where
  | render (s : String)
  | caughtError
  | overflowError

/-- `datetime.fromtimestamp(d, tz=utc).strftime("%Y-%m-%d %H:%M:%SZ")` on an
exact binary64 value: the value is split into whole seconds with
round-half-even microseconds (including the carry into seconds); a seconds
value at or above `2 ^ 63` or below `-2 ^ 63` raises the uncaught
`OverflowError`; a date outside years 1–9999 raises an error the source
catches; otherwise the timestamp renders.  (CPython computes
`fraction × 10 ^ 6` in double arithmetic while this model is exact; the two
can differ only on half-microsecond ties, which never change outcomes in any
theorem below.) -/
def fromtimestampModel : PyFloat → TsOutcome
  | PyFloat.nan => TsOutcome.caughtError
  | PyFloat.inf _ => TsOutcome.overflowError
  | PyFloat.finite numer k =>
    let total := intRoundHalfEven (numer * 1000000) (2 ^ k)
    let sec := Int.ediv total 1000000
    if sec ≥ timeTBound ∨ sec < -timeTBound then TsOutcome.overflowError
    else if sec < minTimestamp ∨ sec > maxTimestamp then TsOutcome.caughtError
    else TsOutcome.render (formatEpochUTC sec)

/-- `timestamp_value in (None, "")`: equality against `None` and `""`. -/
def isNoneOrEmpty : Json → Bool
  | Json.null => true
  | Json.str s => s == ""
  | _ => false

/-- `_format_timestamp` (src/main.py lines 100-109).  `.error` models an
exception escaping the function: the source catches `ValueError`, `TypeError`
and `OSError`, but not the `OverflowError` raised by `float()` on a huge int
or by `datetime.fromtimestamp` beyond the platform `time_t` range. -/
def format_timestamp (v : Json) : Except String String :=
  if isNoneOrEmpty v then Except.ok "n/a"
  else
    match pyFloatConv v with
    | FloatConv.typeError => Except.ok (pyStr v)
    | FloatConv.valueError => Except.ok (pyStr v)
    | FloatConv.intOverflow =>
      Except.error "OverflowError: int too large to convert to float"
    | FloatConv.ok f =>
      (match fromtimestampModel f with
       | TsOutcome.caughtError => Except.ok (pyStr v)
       | TsOutcome.overflowError =>
         Except.error "OverflowError: timestamp out of range for platform time_t"
       | TsOutcome.render out => Except.ok out)

/-- The Discord webhook message limit (src/main.py line 9). -/
def DISCORD_LIMIT : Nat := 2000

/-- Python slicing `s[:n]` on a string (by code points, as in Python). -/
def strTake (s : String) (n : Nat) : String :=
  String.mk (s.data.take n)

/-- `"\n".join(lines)`. -/
def joinLines : List String → String
  | [] => ""
  | [l] => l
  | l :: rest => l ++ "\n" ++ joinLines rest

/-- The truncation step of `_build_message` (src/main.py lines 94-95). -/
def truncateContent (content : String) : String :=
  if content.length > DISCORD_LIMIT then strTake content (DISCORD_LIMIT - 3) ++ "..."
  else content

/-- The six always-emitted lines (src/main.py lines 72-79), parametrised by
the already-interpolated field strings. -/
def baseLines (summary state severity policy condition resource metric
    started ended : String) : List String :=
  ["**" ++ summary ++ "**",
   "State: " ++ state ++ " | Severity: " ++ severity,
   "Policy: " ++ policy ++ " | Condition: " ++ condition,
   "Resource: " ++ resource,
   "Metric: " ++ metric,
   "Started: " ++ started ++ " | Ended: " ++ ended]

/-- The conditional appends of `_build_message` (src/main.py lines 81-91). -/
def condLines (base : List String) (observed threshold url : Json) : List String :=
  let l1 := if truthy observed then base ++ ["Observed Value: " ++ pyStr observed] else base
  let l2 := if truthy threshold then l1 ++ ["Threshold: " ++ pyStr threshold] else l1
  if truthy url then l2 ++ ["Link: " ++ pyStr url] else l2

/-- The resource-display resolution (src/main.py lines 60-65).  `.error`
models the `AttributeError` raised when `.get` is called on a present
non-dict `resource` or `resource["labels"]` value. -/
def resolveResource (incident : List (String × Json)) : Except String Json :=
  let r1 := pyGet incident "resource_display_name"
  if truthy r1 then Except.ok r1
  else
    let r2 := pyGet incident "resource_name"
    if truthy r2 then Except.ok r2
    else
      match pyGetD incident "resource" (Json.obj []) with
      | Json.obj rf =>
        match pyGetD rf "labels" (Json.obj []) with
        | Json.obj lf =>
          Except.ok (pyOr (pyGet lf "instance_id") (Json.str "(unknown resource)"))
        | _ => Except.error "AttributeError: object has no attribute get"
      | _ => Except.error "AttributeError: object has no attribute get"

/-- The line assembly of `_build_message` (src/main.py lines 53-91), before
joining and truncation.  `.error` models an exception escaping the function:
`AttributeError` from `.upper()` on a truthy non-string `state`, from `.get`
on a non-dict `resource` chain or `metric`, or the uncaught `OverflowError`
from `_format_timestamp`.  Evaluation follows the source's statement order. -/
def build_lines (incident : List (String × Json)) : Except String (List String) :=
  let summary := pyOr (pyGet incident "summary") (Json.str "(no summary)")
  let severity := pyOr (pyGet incident "severity") (Json.str "UNSPECIFIED")
  match pyOr (pyGet incident "state") (Json.str "UNKNOWN") with
  | Json.str st =>
    let state := pyUpper st
    let policy := pyOr (pyGet incident "policy_name") (Json.str "(no policy name)")
    let condition := pyOr (pyGet incident "condition_name") (Json.str "(no condition name)")
    match resolveResource incident with
    | Except.error e => Except.error e
    | Except.ok resourceDisplay =>
      match pyGetD incident "metric" (Json.obj []) with
      | Json.obj mf =>
        let metricDisplay :=
          pyOr (pyGet mf "displayName") (pyOr (pyGet mf "type") (Json.str "(unknown metric)"))
        match format_timestamp (pyGet incident "started_at") with
        | Except.error e => Except.error e
        | Except.ok startedAt =>
          match format_timestamp (pyGet incident "ended_at") with
          | Except.error e => Except.error e
          | Except.ok endedAt =>
            Except.ok (condLines
              (baseLines (pyStr summary) state (pyStr severity) (pyStr policy)
                (pyStr condition) (pyStr resourceDisplay) (pyStr metricDisplay)
                startedAt endedAt)
              (pyGet incident "observed_value")
              (pyGet incident "threshold_value")
              (pyOr (pyGet incident "url") (pyGet incident "apigee_url")))
      | _ => Except.error "AttributeError: object has no attribute get"
  | _ => Except.error "AttributeError: object has no attribute upper"

/-- `_build_message` (src/main.py lines 53-97): assembled lines joined with
newlines, truncated to the Discord limit. -/
def build_message (incident : List (String × Json)) : Except String String :=
  match build_lines incident with
  | Except.error e => Except.error e
  | Except.ok lines => Except.ok (truncateContent (joinLines lines))

/-- `_parse_request` (src/main.py lines 36-50).  The argument is the outcome
of `request.get_json(force=True)`: `none` when decoding raised (any
exception), `some v` the decoded value.  `.error` carries the `ValueError`
message. -/
def parse_request (body : Option Json) : Except String (List (String × Json)) :=
  match body with
  | none => Except.error "Request body must be valid JSON"
  | some (Json.obj fields) =>
    match getOpt fields "incident" with
    | some (Json.obj inc) => Except.ok inc
    | _ => Except.error "Payload must include an 'incident' object"
  | some _ => Except.error "JSON payload must be an object"

/-- Outcome of the outbound `urllib.request.urlopen` POST, as seen by
`_post_to_discord`: a returned response, a raised `HTTPError`, or a raised
`URLError` (connection-level failure). -/
inductive PostOutcome where
  | response (status : Nat) (reason : String)
  | httpError (code : Nat) (reason : String)
  | urlError (reason : String)

/-- `_post_to_discord` (src/main.py lines 112-129), as a function of the
urlopen outcome.  `.error` carries the `RuntimeError` message raised. -/
def post_to_discord (outcome : PostOutcome) : Except String Unit :=
  match outcome with
  | PostOutcome.response status _ =>
    if status ≥ 300 then
      Except.error ("Unexpected status from Discord: " ++ toString status)
    else Except.ok ()
  | PostOutcome.httpError code reason =>
    Except.error ("Discord returned " ++ toString code ++ ": " ++ reason)
  | PostOutcome.urlError reason =>
    Except.error ("Discord connection failed: " ++ reason)

/-- urllib's `HTTPErrorProcessor`: a final response with a 2xx status is
returned from `urlopen`; any other final status is raised as `HTTPError`
(carrying the status code and reason). -/
def urllibOutcome (status : Nat) (reason : String) : PostOutcome :=
  if 200 ≤ status ∧ status < 300 then PostOutcome.response status reason
  else PostOutcome.httpError status reason

/-- `handle` (src/main.py lines 12-33).  Inputs: the decoded request body
(as for `parse_request`), the `WEBHOOK_URL` environment variable (`none` when
unset), and the outcome the network would give the outbound POST.  The result
is `.ok (body, status, calls)` where `calls` lists the message contents
actually POSTed (empty iff no outbound call was made), or `.error msg` when
an unhandled exception escapes `handle`. -/
def handle (body : Option Json) (webhook_url : Option String) (post : PostOutcome) :
    Except String (String × Nat × List String) :=
  match parse_request body with
  | Except.error e => Except.ok (e, 400, [])
  | Except.ok incident =>
    if webhook_url.getD "" = "" then
      Except.ok ("Webhook destination is not configured", 500, [])
    else
      match build_message incident with
      | Except.error e => Except.error e
      | Except.ok content =>
        match post_to_discord post with
        | Except.error _ => Except.ok ("Failed to deliver incident", 502, [content])
        | Except.ok _ => Except.ok ("OK", 200, [content])

/-! ## String helper lemmas -/

lemma data_append (s t : String) : (s ++ t).data = s.data ++ t.data := by
  cases s; cases t; rfl

lemma length_append (s t : String) : (s ++ t).length = s.length + t.length := by
  cases s with
  | mk a =>
    cases t with
    | mk b =>
      show (a ++ b).length = a.length + b.length
      exact List.length_append a b

lemma length_strTake (s : String) (n : Nat) : (strTake s n).length = min n s.length := by
  cases s with
  | mk l =>
    show (l.take n).length = min n l.length
    exact List.length_take n l

/-- The behaviour of the truncation step, for any joined content. -/
lemma truncate_spec (c : String) :
    (truncateContent c).length ≤ 2000 ∧
    (c.length > 2000 →
      truncateContent c = strTake c 1997 ++ "..." ∧
      (truncateContent c).length = 2000 ∧
      ∃ p, truncateContent c = p ++ "...") ∧
    (c.length ≤ 2000 → truncateContent c = c) := by
  have hdots : ("..." : String).length = 3 := rfl
  by_cases h : c.length > 2000
  · have heq : truncateContent c = strTake c 1997 ++ "..." := by
      unfold truncateContent DISCORD_LIMIT
      rw [if_pos h]
    have hlen : (truncateContent c).length = 2000 := by
      rw [heq, length_append, length_strTake, hdots]
      omega
    exact ⟨by omega, fun _ => ⟨heq, hlen, ⟨strTake c 1997, heq⟩⟩,
      fun hle => absurd h (by omega)⟩
  · have heq : truncateContent c = c := by
      unfold truncateContent DISCORD_LIMIT
      rw [if_neg h]
    exact ⟨by rw [heq]; omega, fun hgt => absurd hgt h, fun _ => heq⟩

/-! ## Claim theorems -/

/-- C1: for every Incident, the formatter's output is the newline-joined
lines when those fit in 2000 characters, and otherwise the first 1997
characters followed by `...`, hence exactly 2000 characters ending in `...`;
in all cases the output length is at most 2000. -/
theorem C1_output_bounded (incident : List (String × Json)) (lines : List String)
    (h : build_lines incident = Except.ok lines) :
    build_message incident = Except.ok (truncateContent (joinLines lines)) ∧
    (truncateContent (joinLines lines)).length ≤ 2000 ∧
    ((joinLines lines).length > 2000 →
      truncateContent (joinLines lines) = strTake (joinLines lines) 1997 ++ "..." ∧
      (truncateContent (joinLines lines)).length = 2000 ∧
      ∃ p, truncateContent (joinLines lines) = p ++ "...") ∧
    ((joinLines lines).length ≤ 2000 → truncateContent (joinLines lines) = joinLines lines) := by
  refine ⟨?_, truncate_spec (joinLines lines)⟩
  unfold build_message
  rw [h]

/-- A 2100-character summary, long enough to force truncation. -/
def longSummary : String := String.mk (List.replicate 2100 'a')

/-- Incident whose formatted message exceeds the Discord limit. -/
def longIncident : List (String × Json) := [("summary", Json.str longSummary)]

/-- The lines built for `longIncident`. -/
def longLines : List String :=
  baseLines longSummary "UNKNOWN" "UNSPECIFIED" "(no policy name)" "(no condition name)"
    "(unknown resource)" "(unknown metric)" "n/a" "n/a"

lemma longSummary_length : longSummary.length = 2100 := by
  show (List.replicate 2100 'a').length = 2100
  simp

lemma longLines_joined_long : (joinLines longLines).length > 2000 := by
  have hline1 : ("**" ++ longSummary ++ "**").length = 2104 := by
    rw [length_append, length_append, longSummary_length]
    decide
  have hsplit : joinLines longLines =
      ("**" ++ longSummary ++ "**") ++ "\n" ++
        joinLines ["State: UNKNOWN | Severity: UNSPECIFIED",
          "Policy: (no policy name) | Condition: (no condition name)",
          "Resource: (unknown resource)", "Metric: (unknown metric)",
          "Started: n/a | Ended: n/a"] := rfl
  rw [hsplit, length_append, length_append, hline1]
  omega

theorem C1_output_bounded_witness :
    (joinLines longLines).length > 2000 ∧
    build_message longIncident = Except.ok (truncateContent (joinLines longLines)) ∧
    truncateContent (joinLines longLines) = strTake (joinLines longLines) 1997 ++ "..." ∧
    (truncateContent (joinLines longLines)).length = 2000 :=
  ⟨longLines_joined_long,
   (C1_output_bounded longIncident longLines rfl).1,
   ((C1_output_bounded longIncident longLines rfl).2.2.1 longLines_joined_long).1,
   ((C1_output_bounded longIncident longLines rfl).2.2.1 longLines_joined_long).2.1⟩

/-- C6: an Incident with all fields absent yields exactly the six fixed
lines, each carrying its placeholder, and no conditional lines. -/
theorem C6_all_placeholders :
    build_lines [] = Except.ok
      ["**(no summary)**",
       "State: UNKNOWN | Severity: UNSPECIFIED",
       "Policy: (no policy name) | Condition: (no condition name)",
       "Resource: (unknown resource)",
       "Metric: (unknown metric)",
       "Started: n/a | Ended: n/a"] ∧
    build_message [] = Except.ok
      ("**(no summary)**\nState: UNKNOWN | Severity: UNSPECIFIED\nPolicy: (no policy name) | Condition: (no condition name)\nResource: (unknown resource)\nMetric: (unknown metric)\nStarted: n/a | Ended: n/a") :=
  ⟨rfl, rfl⟩

/-- C9: the timestamp formatter is meant to fall back to the raw string form
for any unrenderable numeric, but a numeric beyond the platform `time_t`
range raises an uncaught `OverflowError` that escapes the formatter and the
handler (the source catches only `ValueError`, `TypeError`, `OSError`). -/
theorem C9_overflow_escapes :
    format_timestamp (Json.num 20000000000000000000) =
      Except.error "OverflowError: timestamp out of range for platform time_t" ∧
    build_message [("started_at", Json.num 20000000000000000000)] =
      Except.error "OverflowError: timestamp out of range for platform time_t" ∧
    handle (some (Json.obj [("incident",
        Json.obj [("started_at", Json.num 20000000000000000000)])]))
      (some "https://discord.example/webhook") (PostOutcome.response 204 "No Content") =
      Except.error "OverflowError: timestamp out of range for platform time_t" :=
  ⟨rfl, rfl, rfl⟩

/-- C5: on a valid request with the webhook URL unset or empty, the handler
answers 500 `Webhook destination is not configured` and makes no outbound
call, whatever the network would have answered. -/
theorem C5_unconfigured_destination (body : Option Json)
    (incident : List (String × Json)) (post : PostOutcome)
    (h : parse_request body = Except.ok incident) :
    handle body none post = Except.ok ("Webhook destination is not configured", 500, []) ∧
    handle body (some "") post = Except.ok ("Webhook destination is not configured", 500, []) := by
  constructor <;> simp [handle, h]

theorem C5_unconfigured_destination_witness :
    handle (some (Json.obj [("incident", Json.obj [])])) none
        (PostOutcome.urlError "connection refused") =
      Except.ok ("Webhook destination is not configured", 500, []) ∧
    handle (some (Json.obj [("incident", Json.obj [])])) (some "")
        (PostOutcome.urlError "connection refused") =
      Except.ok ("Webhook destination is not configured", 500, []) :=
  C5_unconfigured_destination _ [] _ rfl

/-- C10: the handler's behaviour depends on the request body only through the
value at key `incident`: two object bodies with equal `incident` values get
identical responses and identical outbound traffic. -/
theorem C10_only_incident_matters (b₁ b₂ : List (String × Json))
    (url : Option String) (post : PostOutcome)
    (h : getOpt b₁ "incident" = getOpt b₂ "incident") :
    handle (some (Json.obj b₁)) url post = handle (some (Json.obj b₂)) url post := by
  unfold handle parse_request
  dsimp only
  rw [h]

theorem C10_only_incident_matters_witness :
    handle (some (Json.obj [("x", Json.num 1),
        ("incident", Json.obj [("summary", Json.str "s")])]))
      (some "https://discord.example/webhook") (PostOutcome.response 204 "No Content") =
    handle (some (Json.obj [("incident", Json.obj [("summary", Json.str "s")]),
        ("extra", Json.bool true)]))
      (some "https://discord.example/webhook") (PostOutcome.response 204 "No Content") :=
  C10_only_incident_matters _ _ _ _ rfl

/-- C3: a JSON body that is not an object is rejected with
`JSON payload must be an object` (HTTP 400); an object body without an
`incident` sub-object is rejected with `Payload must include an 'incident'
object` (HTTP 400); a present `incident` object is returned unmodified. -/
theorem C3_parser_validation (b : Json) (fields : List (String × Json))
    (url : Option String) (post : PostOutcome) :
    ((∀ fs, b ≠ Json.obj fs) →
      parse_request (some b) = Except.error "JSON payload must be an object" ∧
      handle (some b) url post = Except.ok ("JSON payload must be an object", 400, [])) ∧
    ((∀ inc, getOpt fields "incident" ≠ some (Json.obj inc)) →
      parse_request (some (Json.obj fields)) =
        Except.error "Payload must include an 'incident' object" ∧
      handle (some (Json.obj fields)) url post =
        Except.ok ("Payload must include an 'incident' object", 400, [])) ∧
    (∀ inc, getOpt fields "incident" = some (Json.obj inc) →
      parse_request (some (Json.obj fields)) = Except.ok inc) := by
  refine ⟨fun hb => ?_, fun hinc => ?_, fun inc hg => ?_⟩
  · have hp : parse_request (some b) = Except.error "JSON payload must be an object" := by
      cases b
      case obj fs => exact absurd rfl (hb fs)
      all_goals rfl
    exact ⟨hp, by simp [handle, hp]⟩
  · have hp : parse_request (some (Json.obj fields)) =
        Except.error "Payload must include an 'incident' object" := by
      unfold parse_request
      dsimp only
      cases hg : getOpt fields "incident" with
      | none => rfl
      | some v =>
        cases v
        case obj inc => exact absurd hg (hinc inc)
        all_goals rfl
    exact ⟨hp, by simp [handle, hp]⟩
  · unfold parse_request
    dsimp only
    rw [hg]

theorem C3_parser_validation_witness :
    (parse_request (some (Json.arr [])) = Except.error "JSON payload must be an object" ∧
     handle (some (Json.arr [])) none (PostOutcome.urlError "r") =
       Except.ok ("JSON payload must be an object", 400, [])) ∧
    (parse_request (some (Json.obj [("incident", Json.str "x")])) =
       Except.error "Payload must include an 'incident' object" ∧
     handle (some (Json.obj [("incident", Json.str "x")])) none (PostOutcome.urlError "r") =
       Except.ok ("Payload must include an 'incident' object", 400, [])) ∧
    parse_request (some (Json.obj [("incident", Json.obj [("a", Json.num 1)])])) =
      Except.ok [("a", Json.num 1)] :=
  ⟨(C3_parser_validation (Json.arr []) [] none (PostOutcome.urlError "r")).1
     (fun _ h => Json.noConfusion h),
   (C3_parser_validation (Json.arr []) [("incident", Json.str "x")] none
       (PostOutcome.urlError "r")).2.1
     (by
       intro inc h
       have h2 : some (Json.str "x") = some (Json.obj inc) := h
       injection h2 with h3
       exact Json.noConfusion h3),
   (C3_parser_validation (Json.arr []) [("incident", Json.obj [("a", Json.num 1)])] none
       (PostOutcome.urlError "r")).2.2 _ rfl⟩

/-- C4: the forwarder succeeds exactly on a 2xx destination status; any other
status yields a delivery error carrying the status code and reason, a
connection-level failure yields a delivery error with the failure reason, and
a failed delivery makes the handler answer 502 `Failed to deliver incident`. -/
theorem C4_delivery_semantics :
    (∀ status reason, post_to_discord (urllibOutcome status reason) = Except.ok () ↔
      200 ≤ status ∧ status < 300) ∧
    (∀ status reason, ¬(200 ≤ status ∧ status < 300) →
      post_to_discord (urllibOutcome status reason) =
        Except.error ("Discord returned " ++ toString status ++ ": " ++ reason)) ∧
    (∀ reason, post_to_discord (PostOutcome.urlError reason) =
      Except.error ("Discord connection failed: " ++ reason)) ∧
    (∀ body url post incident content e,
      parse_request body = Except.ok incident → url ≠ "" →
      build_message incident = Except.ok content →
      post_to_discord post = Except.error e →
      handle body (some url) post = Except.ok ("Failed to deliver incident", 502, [content])) := by
  have herr : ∀ status reason, ¬(200 ≤ status ∧ status < 300) →
      post_to_discord (urllibOutcome status reason) =
        Except.error ("Discord returned " ++ toString status ++ ": " ++ reason) := by
    intro status reason h
    unfold urllibOutcome
    rw [if_neg h]
    rfl
  refine ⟨fun status reason => ⟨fun hok => ?_, fun h2xx => ?_⟩, herr, fun reason => rfl,
    fun body url post incident content e hp hu hb hpost => ?_⟩
  · by_contra hno
    rw [herr status reason hno] at hok
    exact Except.noConfusion hok
  · unfold urllibOutcome
    rw [if_pos h2xx]
    unfold post_to_discord
    dsimp only
    rw [if_neg (show ¬ status ≥ 300 by omega)]
  · simp [handle, hp, hu, hb, hpost]

theorem C4_delivery_semantics_witness :
    (post_to_discord (urllibOutcome 204 "No Content") = Except.ok () ↔
      200 ≤ 204 ∧ 204 < 300) ∧
    post_to_discord (urllibOutcome 500 "Internal Server Error") =
      Except.error ("Discord returned " ++ toString 500 ++ ": " ++ "Internal Server Error") ∧
    handle (some (Json.obj [("incident", Json.obj [])]))
        (some "https://discord.example/webhook") (urllibOutcome 500 "Internal Server Error") =
      Except.ok ("Failed to deliver incident", 502,
        ["**(no summary)**\nState: UNKNOWN | Severity: UNSPECIFIED\nPolicy: (no policy name) | Condition: (no condition name)\nResource: (unknown resource)\nMetric: (unknown metric)\nStarted: n/a | Ended: n/a"]) :=
  ⟨C4_delivery_semantics.1 204 "No Content",
   C4_delivery_semantics.2.1 500 "Internal Server Error" (by omega),
   C4_delivery_semantics.2.2.2 (some (Json.obj [("incident", Json.obj [])]))
     "https://discord.example/webhook" (urllibOutcome 500 "Internal Server Error") []
     "**(no summary)**\nState: UNKNOWN | Severity: UNSPECIFIED\nPolicy: (no policy name) | Condition: (no condition name)\nResource: (unknown resource)\nMetric: (unknown metric)\nStarted: n/a | Ended: n/a"
     ("Discord returned " ++ toString 500 ++ ": " ++ "Internal Server Error")
     rfl (by simp) rfl rfl⟩

/-- Integers in the representable date range are exactly representable as
binary64 floats. -/
lemma intToPyFloat_inRange (n : Int) (h1 : minTimestamp ≤ n) (h2 : n ≤ maxTimestamp) :
    intToPyFloat n = some (PyFloat.finite n 0) := by
  have hsmall : n.natAbs < 2 ^ 53 := by
    have h1a : (-62135596800 : Int) ≤ n := h1
    have h2a : n ≤ (253402300799 : Int) := h2
    omega
  unfold intToPyFloat
  rw [if_pos hsmall]

/-- A whole-second timestamp in the representable date range renders. -/
lemma fromtimestampModel_int (n : Int) (h1 : minTimestamp ≤ n) (h2 : n ≤ maxTimestamp) :
    fromtimestampModel (PyFloat.finite n 0) = TsOutcome.render (formatEpochUTC n) := by
  have hov : ¬(n ≥ timeTBound ∨ n < -timeTBound) := by
    have h1a : (-62135596800 : Int) ≤ n := h1
    have h2a : n ≤ (253402300799 : Int) := h2
    show ¬(n ≥ (9223372036854775808 : Int) ∨ n < -(9223372036854775808 : Int))
    omega
  have hout : ¬(n < minTimestamp ∨ n > maxTimestamp) := by omega
  unfold fromtimestampModel
  dsimp only
  rw [show (2 : Nat) ^ 0 = 1 from rfl]
  rw [show intRoundHalfEven (n * 1000000) 1 = n * 1000000 from by
    unfold intRoundHalfEven
    rw [if_pos rfl]]
  rw [show Int.ediv (n * 1000000) 1000000 = n from Int.mul_ediv_cancel n (by decide)]
  rw [if_neg hov, if_neg hout]

/-- The values of the integral fragment of `float(str)`: strings whose parse
rounds to a binary64 with an exactly integral value. -/
def pyStrToInt (s : String) : Option Int :=
  match parsePyFloatString s with
  | some lit =>
    (match litToPyFloat lit with
     | PyFloat.finite numer 0 => some numer
     | _ => none)
  | none => none

/-- C8 counterexample: `started_at = 10^12` is numerically interpretable, yet
the formatter returns its raw string form (the year 33658 is outside
`datetime`'s range), not a rendering in the `YYYY-MM-DD HH:MM:SSZ` format. -/
theorem C8_out_of_range_counterexample :
    format_timestamp (Json.num 1000000000000) = Except.ok "1000000000000" ∧
    "1000000000000" ≠ formatEpochUTC 1000000000000 :=
  ⟨rfl, by decide⟩

/-- C8 (amended): missing or empty-string timestamps render `n/a`; a
numerically interpretable value (integral number, or numeric string whose
float value is integral) lying in the representable date range (years
1–9999) renders as UTC in the fixed `Y-MM-DD HH:MM:SSZ` shape, where the
platform's `%Y` prints the year unpadded (four digits for years 1000–9999,
fewer below); `started_at = 0` renders `1970-01-01 00:00:00Z`, the range
ends render `1-01-01 00:00:00Z` and `9999-12-31 23:59:59Z`. -/
theorem C8_timestamp_rendering :
    (format_timestamp Json.null = Except.ok "n/a" ∧
     format_timestamp (Json.str "") = Except.ok "n/a") ∧
    (∀ n : Int, minTimestamp ≤ n → n ≤ maxTimestamp →
      format_timestamp (Json.num n) = Except.ok (formatEpochUTC n)) ∧
    (∀ s n, pyStrToInt s = some n → minTimestamp ≤ n → n ≤ maxTimestamp →
      format_timestamp (Json.str s) = Except.ok (formatEpochUTC n)) ∧
    (∀ n : Int, ∃ y mo d h mi sec : Nat, formatEpochUTC n =
      toString y ++ "-" ++ padNum 2 mo ++ "-" ++ padNum 2 d ++ " " ++
      padNum 2 h ++ ":" ++ padNum 2 mi ++ ":" ++ padNum 2 sec ++ "Z") ∧
    format_timestamp (Json.num 0) = Except.ok "1970-01-01 00:00:00Z" ∧
    format_timestamp (Json.num minTimestamp) = Except.ok "1-01-01 00:00:00Z" ∧
    format_timestamp (Json.num maxTimestamp) = Except.ok "9999-12-31 23:59:59Z" := by
  refine ⟨⟨rfl, rfl⟩, fun n h1 h2 => ?_, fun s n hp h1 h2 => ?_, fun n => ?_, rfl, rfl, rfl⟩
  · unfold format_timestamp
    rw [if_neg (by simp [isNoneOrEmpty])]
    have hconv : pyFloatConv (Json.num n) = FloatConv.ok (PyFloat.finite n 0) := by
      unfold pyFloatConv
      dsimp only
      rw [intToPyFloat_inRange n h1 h2]
    rw [hconv]
    dsimp only
    rw [fromtimestampModel_int n h1 h2]
  · unfold pyStrToInt at hp
    cases hparse : parsePyFloatString s with
    | none =>
      rw [hparse] at hp
      exact Option.noConfusion hp
    | some lit =>
      rw [hparse] at hp
      dsimp only at hp
      cases hlf : litToPyFloat lit with
      | nan =>
        rw [hlf] at hp
        exact Option.noConfusion hp
      | inf b =>
        rw [hlf] at hp
        exact Option.noConfusion hp
      | finite numer k =>
        rw [hlf] at hp
        cases k with
        | succ k2 => exact Option.noConfusion hp
        | zero =>
          have hn : numer = n := Option.some.inj hp
          subst hn
          unfold format_timestamp
          have hnemp : isNoneOrEmpty (Json.str s) = false := by
            by_cases hs : s = ""
            · subst hs
              have hcontra : (none : Option PyLit) = some lit := hparse
              exact Option.noConfusion hcontra
            · simp [isNoneOrEmpty, hs]
          rw [if_neg (by rw [hnemp]; exact Bool.false_ne_true)]
          have hconv : pyFloatConv (Json.str s) =
              FloatConv.ok (PyFloat.finite numer 0) := by
            unfold pyFloatConv
            dsimp only
            rw [hparse]
            dsimp only
            rw [hlf]
          rw [hconv]
          dsimp only
          rw [fromtimestampModel_int numer h1 h2]
  · exact ⟨_, _, _, _, _, _, rfl⟩

theorem C8_timestamp_rendering_witness :
    format_timestamp (Json.num 0) = Except.ok (formatEpochUTC 0) ∧
    format_timestamp (Json.str "1700000000") = Except.ok (formatEpochUTC 1700000000) ∧
    formatEpochUTC 0 = "1970-01-01 00:00:00Z" :=
  ⟨C8_timestamp_rendering.2.1 0 (by decide) (by decide),
   C8_timestamp_rendering.2.2.1 "1700000000" 1700000000 (by decide) (by decide) (by decide),
   rfl⟩

/-! ## Well-typedness guards for the formatter (claim C2) -/

/-- `state` is a string whenever `.upper()` is reached with a truthy value. -/
def stateOk (incident : List (String × Json)) : Bool :=
  match pyOr (pyGet incident "state") (Json.str "UNKNOWN") with
  | Json.str _ => true
  | _ => false

/-- The `resource` / `resource.labels` chain, when reached, only calls `.get`
on dicts. -/
def resourceOk (incident : List (String × Json)) : Bool :=
  truthy (pyGet incident "resource_display_name") ||
    truthy (pyGet incident "resource_name") ||
    (match pyGetD incident "resource" (Json.obj []) with
     | Json.obj rf =>
       (match pyGetD rf "labels" (Json.obj []) with
        | Json.obj _ => true
        | _ => false)
     | _ => false)

/-- `metric`, when present, is a dict. -/
def metricOk (incident : List (String × Json)) : Bool :=
  match pyGetD incident "metric" (Json.obj []) with
  | Json.obj _ => true
  | _ => false

/-- The timestamp value does not lead to an uncaught exception: the
conversion must not overflow, a converted float must stay inside the `time_t`
range, and a parse failure on a string is trusted only when the string is
all-ASCII (Python additionally accepts non-ASCII decimal digits, which this
model does not parse). -/
def timestampOk (v : Json) : Bool :=
  match pyFloatConv v with
  | FloatConv.ok f =>
    (match fromtimestampModel f with
     | TsOutcome.overflowError => false
     | _ => true)
  | FloatConv.typeError => true
  | FloatConv.intOverflow => false
  | FloatConv.valueError =>
    (match v with
     | Json.str s => s.data.all (fun c => c.toNat < 128)
     | _ => true)

lemma format_timestamp_ok (v : Json) (h : timestampOk v = true) :
    ∃ s, format_timestamp v = Except.ok s := by
  unfold timestampOk at h
  unfold format_timestamp
  by_cases hne : isNoneOrEmpty v = true
  · rw [if_pos hne]
    exact ⟨_, rfl⟩
  · rw [if_neg hne]
    cases hc : pyFloatConv v with
    | typeError => exact ⟨_, rfl⟩
    | valueError => exact ⟨_, rfl⟩
    | intOverflow =>
      rw [hc] at h
      exact Bool.noConfusion h
    | ok f =>
      rw [hc] at h
      dsimp only at h ⊢
      cases ho : fromtimestampModel f with
      | render out => exact ⟨_, rfl⟩
      | caughtError => exact ⟨_, rfl⟩
      | overflowError =>
        rw [ho] at h
        exact Bool.noConfusion h

lemma resolveResource_ok (incident : List (String × Json))
    (h : resourceOk incident = true) :
    ∃ v, resolveResource incident = Except.ok v := by
  unfold resourceOk at h
  unfold resolveResource
  by_cases t1 : truthy (pyGet incident "resource_display_name") = true
  · rw [if_pos t1]
    exact ⟨_, rfl⟩
  · rw [if_neg t1]
    by_cases t2 : truthy (pyGet incident "resource_name") = true
    · rw [if_pos t2]
      exact ⟨_, rfl⟩
    · rw [if_neg t2]
      rw [Bool.not_eq_true] at t1 t2
      rw [t1, t2] at h
      simp only [Bool.false_or] at h
      cases hr : pyGetD incident "resource" (Json.obj []) with
      | obj rf =>
        rw [hr] at h
        dsimp only at h ⊢
        cases hl : pyGetD rf "labels" (Json.obj []) with
        | obj lf =>
          exact ⟨_, rfl⟩
        | null => rw [hl] at h; exact Bool.noConfusion h
        | bool b => rw [hl] at h; exact Bool.noConfusion h
        | num n => rw [hl] at h; exact Bool.noConfusion h
        | str sv => rw [hl] at h; exact Bool.noConfusion h
        | arr es => rw [hl] at h; exact Bool.noConfusion h
      | null => rw [hr] at h; exact Bool.noConfusion h
      | bool b => rw [hr] at h; exact Bool.noConfusion h
      | num n => rw [hr] at h; exact Bool.noConfusion h
      | str sv => rw [hr] at h; exact Bool.noConfusion h
      | arr es => rw [hr] at h; exact Bool.noConfusion h

/-- C2 counterexample: a truthy non-string `state` makes `.upper()` raise
`AttributeError`, which escapes the formatter and the handler — the formatter
is not total on arbitrary JSON field types, and the failure reaches the
caller from the formatter, not only from the parser or forwarder. -/
theorem C2_ill_typed_counterexample :
    build_message [("state", Json.num 5)] =
      Except.error "AttributeError: object has no attribute upper" ∧
    handle (some (Json.obj [("incident", Json.obj [("state", Json.num 5)])]))
        (some "https://discord.example/webhook") (PostOutcome.response 204 "No Content") =
      Except.error "AttributeError: object has no attribute upper" :=
  ⟨rfl, rfl⟩

/-- C2 (amended): the formatter returns a string and never raises for every
Incident whose fields are well-typed where the code invokes methods on them:
`state` a string when truthy, the `resource` / `resource.labels` chain dicts
when reached, `metric` a dict when present, and timestamp values within the
`time_t` range. -/
theorem C2_formatter_total_when_welltyped (incident : List (String × Json))
    (h1 : stateOk incident = true) (h2 : resourceOk incident = true)
    (h3 : metricOk incident = true)
    (h4 : timestampOk (pyGet incident "started_at") = true)
    (h5 : timestampOk (pyGet incident "ended_at") = true) :
    ∃ msg, build_message incident = Except.ok msg := by
  obtain ⟨st, hst⟩ : ∃ st, pyOr (pyGet incident "state") (Json.str "UNKNOWN") = Json.str st := by
    unfold stateOk at h1
    cases hv : pyOr (pyGet incident "state") (Json.str "UNKNOWN") with
    | str st => exact ⟨st, rfl⟩
    | null => rw [hv] at h1; exact Bool.noConfusion h1
    | bool b => rw [hv] at h1; exact Bool.noConfusion h1
    | num n => rw [hv] at h1; exact Bool.noConfusion h1
    | arr es => rw [hv] at h1; exact Bool.noConfusion h1
    | obj fs => rw [hv] at h1; exact Bool.noConfusion h1
  obtain ⟨rv, hrv⟩ := resolveResource_ok incident h2
  obtain ⟨mf, hmf⟩ : ∃ mf, pyGetD incident "metric" (Json.obj []) = Json.obj mf := by
    unfold metricOk at h3
    cases hv : pyGetD incident "metric" (Json.obj []) with
    | obj mf => exact ⟨mf, rfl⟩
    | null => rw [hv] at h3; exact Bool.noConfusion h3
    | bool b => rw [hv] at h3; exact Bool.noConfusion h3
    | num n => rw [hv] at h3; exact Bool.noConfusion h3
    | str sv => rw [hv] at h3; exact Bool.noConfusion h3
    | arr es => rw [hv] at h3; exact Bool.noConfusion h3
  obtain ⟨s1, hs1⟩ := format_timestamp_ok _ h4
  obtain ⟨s2, hs2⟩ := format_timestamp_ok _ h5
  have hbl : build_lines incident = Except.ok (condLines
      (baseLines (pyStr (pyOr (pyGet incident "summary") (Json.str "(no summary)")))
        (pyUpper st)
        (pyStr (pyOr (pyGet incident "severity") (Json.str "UNSPECIFIED")))
        (pyStr (pyOr (pyGet incident "policy_name") (Json.str "(no policy name)")))
        (pyStr (pyOr (pyGet incident "condition_name") (Json.str "(no condition name)")))
        (pyStr rv)
        (pyStr (pyOr (pyGet mf "displayName") (pyOr (pyGet mf "type")
          (Json.str "(unknown metric)"))))
        s1 s2)
      (pyGet incident "observed_value") (pyGet incident "threshold_value")
      (pyOr (pyGet incident "url") (pyGet incident "apigee_url"))) := by
    unfold build_lines
    dsimp only
    rw [hst]
    dsimp only
    rw [hrv]
    dsimp only
    rw [hmf]
    dsimp only
    rw [hs1]
    dsimp only
    rw [hs2]
  refine ⟨truncateContent (joinLines (condLines
      (baseLines (pyStr (pyOr (pyGet incident "summary") (Json.str "(no summary)")))
        (pyUpper st)
        (pyStr (pyOr (pyGet incident "severity") (Json.str "UNSPECIFIED")))
        (pyStr (pyOr (pyGet incident "policy_name") (Json.str "(no policy name)")))
        (pyStr (pyOr (pyGet incident "condition_name") (Json.str "(no condition name)")))
        (pyStr rv)
        (pyStr (pyOr (pyGet mf "displayName") (pyOr (pyGet mf "type")
          (Json.str "(unknown metric)"))))
        s1 s2)
      (pyGet incident "observed_value") (pyGet incident "threshold_value")
      (pyOr (pyGet incident "url") (pyGet incident "apigee_url")))), ?_⟩
  unfold build_message
  rw [hbl]

/-- A well-typed incident exercising every guard of the amended C2. -/
def typedIncident : List (String × Json) :=
  [("state", Json.str "open"), ("started_at", Json.num 0),
   ("resource", Json.obj [("labels", Json.obj [("instance_id", Json.str "i-1")])]),
   ("metric", Json.obj [("type", Json.str "t")])]

theorem C2_formatter_total_when_welltyped_witness :
    stateOk typedIncident = true ∧ resourceOk typedIncident = true ∧
    metricOk typedIncident = true ∧
    timestampOk (pyGet typedIncident "started_at") = true ∧
    timestampOk (pyGet typedIncident "ended_at") = true ∧
    ∃ msg, build_message typedIncident = Except.ok msg :=
  ⟨rfl, rfl, rfl, rfl, rfl,
   C2_formatter_total_when_welltyped typedIncident rfl rfl rfl rfl rfl⟩

/-! ## Line-prefix machinery for the conditional lines (claim C7) -/

/-- `l.startswith(p)`. -/
def strStarts (l p : String) : Bool :=
  p.data.isPrefixOf l.data

/-- Some line of `lines` starts with `p`. -/
def hasLineStarting (lines : List String) (p : String) : Bool :=
  lines.any (fun l => strStarts l p)

/-- `t` occurs as a contiguous substring of `s`. -/
def strContains (s t : String) : Prop :=
  t.data <:+: s.data

instance strContainsDecidable (s t : String) : Decidable (strContains s t) :=
  List.decidableInfix t.data s.data

lemma head_append_of_head (s t : String) (c : Char) (h : s.data.head? = some c) :
    (s ++ t).data.head? = some c := by
  cases s with
  | mk l =>
    cases t with
    | mk m =>
      cases l with
      | nil => exact Option.noConfusion h
      | cons a as => exact h

lemma strStarts_head_ne (l p : String) (c d : Char) (hl : l.data.head? = some c)
    (hp : p.data.head? = some d) (hne : (d == c) = false) : strStarts l p = false := by
  unfold strStarts
  cases l with
  | mk ls =>
    cases p with
    | mk ps =>
      cases ls with
      | nil => exact Option.noConfusion hl
      | cons a as =>
        cases ps with
        | nil => exact Option.noConfusion hp
        | cons b bs =>
          have ha : a = c := Option.some.inj hl
          have hb : b = d := Option.some.inj hp
          show ((b == a) && List.isPrefixOf bs as) = false
          rw [ha, hb, hne]
          rfl

lemma str_append_assoc (a b c : String) : a ++ b ++ c = a ++ (b ++ c) := by
  cases a with
  | mk la =>
    cases b with
    | mk lb =>
      cases c with
      | mk lc =>
        show String.mk (la ++ lb ++ lc) = String.mk (la ++ (lb ++ lc))
        rw [List.append_assoc]

lemma strStarts_append_self (p t : String) : strStarts (p ++ t) p = true := by
  unfold strStarts
  rw [data_append, List.isPrefixOf_iff_prefix]
  exact List.prefix_append _ _

lemma strStarts_obs_line (x : String) :
    strStarts ("Observed Value: " ++ x) "Observed Value:" = true := by
  rw [show ("Observed Value: " : String) = "Observed Value:" ++ " " from rfl,
    str_append_assoc]
  exact strStarts_append_self _ _

lemma strStarts_thr_line (x : String) :
    strStarts ("Threshold: " ++ x) "Threshold:" = true := by
  rw [show ("Threshold: " : String) = "Threshold:" ++ " " from rfl, str_append_assoc]
  exact strStarts_append_self _ _

lemma strStarts_link_line (x : String) :
    strStarts ("Link: " ++ x) "Link:" = true := by
  rw [show ("Link: " : String) = "Link:" ++ " " from rfl, str_append_assoc]
  exact strStarts_append_self _ _

lemma obs_not_thr (x : String) :
    strStarts ("Observed Value: " ++ x) "Threshold:" = false :=
  strStarts_head_ne _ _ 'O' 'T' (head_append_of_head _ _ _ rfl) rfl (by decide)

lemma obs_not_link (x : String) :
    strStarts ("Observed Value: " ++ x) "Link:" = false :=
  strStarts_head_ne _ _ 'O' 'L' (head_append_of_head _ _ _ rfl) rfl (by decide)

lemma thr_not_obs (x : String) :
    strStarts ("Threshold: " ++ x) "Observed Value:" = false :=
  strStarts_head_ne _ _ 'T' 'O' (head_append_of_head _ _ _ rfl) rfl (by decide)

lemma thr_not_link (x : String) :
    strStarts ("Threshold: " ++ x) "Link:" = false :=
  strStarts_head_ne _ _ 'T' 'L' (head_append_of_head _ _ _ rfl) rfl (by decide)

lemma link_not_obs (x : String) :
    strStarts ("Link: " ++ x) "Observed Value:" = false :=
  strStarts_head_ne _ _ 'L' 'O' (head_append_of_head _ _ _ rfl) rfl (by decide)

lemma link_not_thr (x : String) :
    strStarts ("Link: " ++ x) "Threshold:" = false :=
  strStarts_head_ne _ _ 'L' 'T' (head_append_of_head _ _ _ rfl) rfl (by decide)

/-- None of the six always-emitted lines starts with a prefix whose first
character differs from each of the six line heads. -/
lemma hasLineStarting_base (su st sv po co re me sa ea : String) (p : String)
    (d : Char) (hp : p.data.head? = some d)
    (h1 : (d == '*') = false) (h2 : (d == 'S') = false) (h3 : (d == 'P') = false)
    (h4 : (d == 'R') = false) (h5 : (d == 'M') = false) :
    hasLineStarting (baseLines su st sv po co re me sa ea) p = false := by
  unfold hasLineStarting baseLines
  simp only [List.any_cons, List.any_nil, Bool.or_false]
  rw [strStarts_head_ne _ p '*' d
      (head_append_of_head _ _ _ (head_append_of_head "**" su '*' rfl)) hp h1,
    strStarts_head_ne _ p 'S' d
      (head_append_of_head _ _ _ (head_append_of_head _ _ _
        (head_append_of_head "State: " st 'S' rfl))) hp h2,
    strStarts_head_ne _ p 'P' d
      (head_append_of_head _ _ _ (head_append_of_head _ _ _
        (head_append_of_head "Policy: " po 'P' rfl))) hp h3,
    strStarts_head_ne _ p 'R' d (head_append_of_head "Resource: " re 'R' rfl) hp h4,
    strStarts_head_ne _ p 'M' d (head_append_of_head "Metric: " me 'M' rfl) hp h5,
    strStarts_head_ne _ p 'S' d
      (head_append_of_head _ _ _ (head_append_of_head _ _ _
        (head_append_of_head "Started: " sa 'S' rfl))) hp h2]
  rfl

lemma pyOr_pos (a b : Json) (h : truthy a = true) : pyOr a b = a := by
  unfold pyOr
  rw [if_pos h]

lemma truthy_pyOr (a b : Json) : truthy (pyOr a b) = (truthy a || truthy b) := by
  unfold pyOr
  by_cases h : truthy a = true
  · rw [if_pos h, h, Bool.true_or]
  · rw [if_neg h]
    rw [Bool.not_eq_true] at h
    rw [h, Bool.false_or]

/-- The three conditional lines appear in the assembled list exactly when
their values are truthy. -/
lemma hasLineStarting_cond (base : List String) (obs thr url : Json)
    (hO : hasLineStarting base "Observed Value:" = false)
    (hT : hasLineStarting base "Threshold:" = false)
    (hL : hasLineStarting base "Link:" = false) :
    hasLineStarting (condLines base obs thr url) "Observed Value:" = truthy obs ∧
    hasLineStarting (condLines base obs thr url) "Threshold:" = truthy thr ∧
    hasLineStarting (condLines base obs thr url) "Link:" = truthy url ∧
    (truthy url = true → ("Link: " ++ pyStr url) ∈ condLines base obs thr url) := by
  unfold condLines
  unfold hasLineStarting at hO hT hL ⊢
  by_cases ho : truthy obs = true <;> by_cases ht : truthy thr = true <;>
    by_cases hu : truthy url = true <;>
    simp [ho, ht, hu, List.any_append, List.any_cons, List.any_nil, hO, hT, hL,
      strStarts_obs_line, strStarts_thr_line, strStarts_link_line,
      obs_not_thr, obs_not_link, thr_not_obs, thr_not_link, link_not_obs, link_not_thr,
      Bool.not_eq_true]

/-- Successful line assembly always yields the six base lines followed by the
conditional lines. -/
lemma build_lines_ok_shape (incident : List (String × Json)) (lines : List String)
    (h : build_lines incident = Except.ok lines) :
    ∃ su st sv po co re me sa ea, lines =
      condLines (baseLines su st sv po co re me sa ea)
        (pyGet incident "observed_value") (pyGet incident "threshold_value")
        (pyOr (pyGet incident "url") (pyGet incident "apigee_url")) := by
  unfold build_lines at h
  dsimp only at h
  split at h
  · split at h
    · exact Except.noConfusion h
    · split at h
      · split at h
        · exact Except.noConfusion h
        · split at h
          · exact Except.noConfusion h
          · exact ⟨_, _, _, _, _, _, _, _, _, (Except.ok.inj h).symm⟩
      · exact Except.noConfusion h
  · exact Except.noConfusion h

/-- The concrete incident of the C7 example. -/
def exampleIncident : List (String × Json) :=
  [("summary", Json.str "Disk full"), ("state", Json.str "open"),
   ("severity", Json.str "critical"), ("observed_value", Json.num 95)]

/-- The lines built for `exampleIncident`. -/
def exampleLines : List String :=
  ["**Disk full**", "State: OPEN | Severity: critical",
   "Policy: (no policy name) | Condition: (no condition name)",
   "Resource: (unknown resource)", "Metric: (unknown metric)",
   "Started: n/a | Ended: n/a", "Observed Value: 95"]

/-- The message built for `exampleIncident`. -/
def exampleMessage : String :=
  "**Disk full**\nState: OPEN | Severity: critical\nPolicy: (no policy name) | Condition: (no condition name)\nResource: (unknown resource)\nMetric: (unknown metric)\nStarted: n/a | Ended: n/a\nObserved Value: 95"

/-- C7: the `Observed Value:` / `Threshold:` lines appear iff their values
are truthy (so a value of `0` suppresses the line), the `Link:` line appears
iff `url` or `apigee_url` is truthy and carries `url` when `url` is truthy;
and on the example incident the output starts with `**Disk full**`, contains
the `State:` and `Observed Value:` text and no `Threshold:` line. -/
theorem C7_conditional_lines :
    (∀ incident lines, build_lines incident = Except.ok lines →
      hasLineStarting lines "Observed Value:" = truthy (pyGet incident "observed_value") ∧
      hasLineStarting lines "Threshold:" = truthy (pyGet incident "threshold_value") ∧
      hasLineStarting lines "Link:" =
        (truthy (pyGet incident "url") || truthy (pyGet incident "apigee_url")) ∧
      (truthy (pyGet incident "url") = true →
        ("Link: " ++ pyStr (pyGet incident "url")) ∈ lines)) ∧
    (∀ incident lines, build_lines incident = Except.ok lines →
      pyGet incident "observed_value" = Json.num 0 →
      hasLineStarting lines "Observed Value:" = false) ∧
    (build_message exampleIncident = Except.ok exampleMessage ∧
     strStarts exampleMessage "**Disk full**" = true ∧
     strContains exampleMessage "State: OPEN | Severity: critical" ∧
     strContains exampleMessage "Observed Value: 95" ∧
     ¬ strContains exampleMessage "Threshold:") := by
  have main : ∀ incident lines, build_lines incident = Except.ok lines →
      hasLineStarting lines "Observed Value:" = truthy (pyGet incident "observed_value") ∧
      hasLineStarting lines "Threshold:" = truthy (pyGet incident "threshold_value") ∧
      hasLineStarting lines "Link:" =
        (truthy (pyGet incident "url") || truthy (pyGet incident "apigee_url")) ∧
      (truthy (pyGet incident "url") = true →
        ("Link: " ++ pyStr (pyGet incident "url")) ∈ lines) := by
    intro incident lines h
    obtain ⟨su, st, sv, po, co, re, me, sa, ea, rfl⟩ :=
      build_lines_ok_shape incident lines h
    have hc := hasLineStarting_cond (baseLines su st sv po co re me sa ea)
      (pyGet incident "observed_value") (pyGet incident "threshold_value")
      (pyOr (pyGet incident "url") (pyGet incident "apigee_url"))
      (hasLineStarting_base _ _ _ _ _ _ _ _ _ _ 'O' rfl (by decide) (by decide)
        (by decide) (by decide) (by decide))
      (hasLineStarting_base _ _ _ _ _ _ _ _ _ _ 'T' rfl (by decide) (by decide)
        (by decide) (by decide) (by decide))
      (hasLineStarting_base _ _ _ _ _ _ _ _ _ _ 'L' rfl (by decide) (by decide)
        (by decide) (by decide) (by decide))
    refine ⟨hc.1, hc.2.1, ?_, ?_⟩
    · rw [hc.2.2.1, truthy_pyOr]
    · intro hu
      have hm := hc.2.2.2 (by rw [truthy_pyOr, hu, Bool.true_or])
      rw [show pyStr (pyOr (pyGet incident "url") (pyGet incident "apigee_url")) =
          pyStr (pyGet incident "url") from by rw [pyOr_pos _ _ hu]] at hm
      exact hm
  refine ⟨main, fun incident lines h hz => ?_, rfl, rfl, by decide, by decide, by decide⟩
  rw [(main incident lines h).1, hz]
  rfl

theorem C7_conditional_lines_witness :
    hasLineStarting exampleLines "Observed Value:" =
      truthy (pyGet exampleIncident "observed_value") ∧
    hasLineStarting exampleLines "Threshold:" =
      truthy (pyGet exampleIncident "threshold_value") ∧
    hasLineStarting exampleLines "Link:" =
      (truthy (pyGet exampleIncident "url") || truthy (pyGet exampleIncident "apigee_url")) ∧
    (truthy (pyGet exampleIncident "url") = true →
      ("Link: " ++ pyStr (pyGet exampleIncident "url")) ∈ exampleLines) :=
  C7_conditional_lines.1 exampleIncident exampleLines rfl

end DiscordForwarder
